import Mathlib

/-!
Verification of the mockup-generation pipeline in `make_mockups3.py`.

The script composites artwork images onto mockup scene templates with
Pillow (PIL).  This file shallowly embeds, in Lean, the arithmetic and
control flow of that script together with the exact integer semantics of
the Pillow primitives it calls (`Image.rotate`, `Image.resize` shape,
`ImageChops.multiply`, `Image.blend`, `Image.point`, `Image.composite`,
`Image.paste`), and proves or refutes the specified properties.

Modelling conventions:
* Python `int(x)` on a float truncates toward zero; we model the real
  arithmetic over `ℚ` (the float values involved in the properties below
  are exact at the relevant points) and truncation by `pyTrunc`.
* Pillow channel values are 8-bit; channel arithmetic is modelled on `ℕ`
  with explicit `≤ 255` bounds where a statement needs them.
* Resampling kernels (BICUBIC / LANCZOS pixel values) are not modelled;
  operations that only need the output shape take the resampled pixel
  content from an uninterpreted `Resampler` parameter.  No settled
  statement depends on resampled pixel values.
-/

set_option maxHeartbeats 1000000

/-- CPython `int()` applied to a real value: truncation toward zero
(`float.__trunc__`).  This is `⌊q⌋` for `q ≥ 0` and `⌈q⌉` for `q < 0`. -/
def pyTrunc (q : ℚ) : ℤ := if 0 ≤ q then ⌊q⌋ else ⌈q⌉

/-- Pillow's `MULDIV255(a, b, tmp)` macro (Imaging.h):
`tmp = a*b + 128; ((tmp >> 8) + tmp) >> 8`.  This is how
`ImageChops.multiply` and `Image.paste` divide products by 255. -/
def muldiv255 (a b : ℕ) : ℕ := ((a * b + 128) / 256 + (a * b + 128)) / 256

/-- One mockup configuration record (the entries of the `mockups` dict,
lines 47-64 of `make_mockups3.py`).  Field names follow the source keys. -/
structure MockupConfig where
  overlay_filename : String
  artwork_width : ℤ
  artwork_height : ℤ
  artwork_x : ℤ
  artwork_y : ℤ
  rotation : ℚ
deriving DecidableEq

/-- The `"mockup_30x40_tr"` configuration from the source. -/
def mockup30x40 : MockupConfig :=
  { overlay_filename := "mockup_30x40_tr.png"
    artwork_width := 2554, artwork_height := 3185
    artwork_x := 1341, artwork_y := 2007, rotation := 743/100 }

/-- The `"mockup_60x80_tr"` configuration from the source. -/
def mockup60x80 : MockupConfig :=
  { overlay_filename := "mockup_60x80_tr.png"
    artwork_width := 5106, artwork_height := 6374
    artwork_x := 144, artwork_y := 410, rotation := 73/10 }

/-- The `mockups` dictionary in declaration order (Python dicts preserve
insertion order). -/
def mockupList : List (String × MockupConfig) :=
  [("mockup_30x40_tr", mockup30x40), ("mockup_60x80_tr", mockup60x80)]

/-- Lines 91-93: `scale_x = artwork_width / rotated.width`,
`scale_y = artwork_height / rotated.height`, `scale = (scale_x + scale_y) / 2`,
for a rotated artwork of pixel size `rw × rh`. -/
def scaleFor (rw rh : ℕ) (cfg : MockupConfig) : ℚ :=
  ((cfg.artwork_width : ℚ) / (rw : ℚ) + (cfg.artwork_height : ℚ) / (rh : ℚ)) / 2

/-- Line 96: the resized width `int(rotated.width * scale)`. -/
def finalW (rw rh : ℕ) (cfg : MockupConfig) : ℤ :=
  pyTrunc ((rw : ℚ) * scaleFor rw rh cfg)

/-- Line 96: the resized height `int(rotated.height * scale)`. -/
def finalH (rw rh : ℕ) (cfg : MockupConfig) : ℤ :=
  pyTrunc ((rh : ℚ) * scaleFor rw rh cfg)

/-- Lines 102-104: `paste_x = int(artwork_x + artwork_width/2 - fw/2)`
where `fw` is the scaled artwork's width. -/
def pasteXFor (cfg : MockupConfig) (fw : ℤ) : ℤ :=
  pyTrunc ((cfg.artwork_x : ℚ) + (cfg.artwork_width : ℚ) / 2 - (fw : ℚ) / 2)

/-- Lines 103-105: `paste_y = int(artwork_y + artwork_height/2 - fh/2)`
where `fh` is the scaled artwork's height. -/
def pasteYFor (cfg : MockupConfig) (fh : ℤ) : ℤ :=
  pyTrunc ((cfg.artwork_y : ℚ) + (cfg.artwork_height : ℚ) / 2 - (fh : ℚ) / 2)

/-- Configuration used to exhibit the paste-offset rounding behaviour:
a 1×1 target box anchored at the origin. -/
def cfgSmallBox : MockupConfig :=
  { overlay_filename := "o.png", artwork_width := 1, artwork_height := 1
    artwork_x := 0, artwork_y := 0, rotation := 0 }

/-- Pillow image mode, as far as this script distinguishes them. -/
inductive PMode where
  | RGB
  | RGBA
  | L
deriving DecidableEq

/-- One pixel; channel values are 8-bit in Pillow, modelled on `ℕ`.
For `RGB`-mode images the alpha field is fixed to 255. -/
structure Pix where
  r : ℕ
  g : ℕ
  b : ℕ
  a : ℕ
deriving DecidableEq

/-- An in-memory raster: mode, pixel dimensions and pixel content.
Coordinates are `ℤ` so that negative paste offsets need no clamping;
pixels outside `[0,width) × [0,height)` are irrelevant to every
statement below. -/
structure Img where
  mode : PMode
  width : ℕ
  height : ℕ
  px : ℤ → ℤ → Pix

/-- Uninterpreted resampling kernels: `rotate` stands for
`Image.rotate(angle, resample=BICUBIC, expand=True)` at an arbitrary
angle, and `sample im w h x y` for the pixel content produced by
`Image.resize((w, h), resample=LANCZOS)`.  The settled statements hold
for every interpretation. -/
structure Resampler where
  rotate : Img → ℚ → Img
  sample : Img → ℕ → ℕ → ℤ → ℤ → Pix

/-- `Image.resize((w, h), ...)`: the mode is preserved, the size is the
requested one, the pixel content comes from the resampling kernel. -/
def resizeImg (R : Resampler) (im : Img) (w h : ℕ) : Img :=
  { mode := im.mode, width := w, height := h, px := fun x y => R.sample im w h x y }

/-- `Image.rotate(90, expand=True)`.  Pillow's `rotate` takes its angle
counterclockwise: with `expand` it reduces a 90-degree call to
`transpose(ROTATE_90)`, and in general it maps output position `(x, y)`
to source position `(cos θ · x - sin θ · y, sin θ · x + cos θ · y)`
(about the centre; the internal matrix is built from `-radians(angle)`).
At 90 degrees this sends output `(x, y)` to source `(width - 1 - y, x)`:
the source's rightmost column becomes the output's top row. -/
def pilRotate90 (im : Img) : Img :=
  { mode := im.mode, width := im.height, height := im.width
    px := fun x y => im.px ((im.width : ℤ) - 1 - y) x }

/-- Modelled from the spec: a genuinely clockwise 90-degree rotation of
the raster (origin top-left, x to the right, y downward): output `(x, y)`
takes source `(y, height - 1 - x)`, so the source's top row becomes the
output's rightmost column.  Used to compare Pillow's behaviour with the
spec's stated rotation direction. -/
def clockwise90 (im : Img) : Img :=
  { mode := im.mode, width := im.height, height := im.width
    px := fun x y => im.px y ((im.height : ℤ) - 1 - x) }

/-- A 2×1 RGBA artwork: left pixel red, right pixel blue. -/
def artTwoPixels : Img :=
  { mode := PMode.RGBA, width := 2, height := 1
    px := fun x _ => if x = 0 then ⟨200, 0, 0, 255⟩ else ⟨0, 0, 200, 255⟩ }

/-- Line 37: `CANVAS_SIZE = (5400, 7200)`. -/
def CANVAS_W : ℕ := 5400

/-- Line 37, second component. -/
def CANVAS_H : ℕ := 7200

/-- Line 39: `OUTPUT_SIZE = (1500, 2000)`. -/
def OUTPUT_W : ℕ := 1500

/-- Line 39, second component. -/
def OUTPUT_H : ℕ := 2000

/-- Line 40: `WEBP_QUALITY = 90`. -/
def WEBP_QUALITY : ℕ := 90

/-- Line 43: `SHADOW_OPACITY = 0.3` (the Python binary float 0.3 differs
from 3/10 by less than 2^-54; no settled statement depends on the exact
interpolation weight, only on it being strictly between 0 and 1). -/
def SHADOW_OPACITY : ℚ := 3/10

/-- Line 83: `Image.new("RGBA", CANVAS_SIZE, (255, 255, 255, 255))`. -/
def blankCanvas : Img :=
  { mode := PMode.RGBA, width := CANVAS_W, height := CANVAS_H
    px := fun _ _ => ⟨255, 255, 255, 255⟩ }

/-- `convert("RGB")` on an RGBA raster: Pillow drops the alpha band and
leaves the colour bands untouched (no compositing over a background). -/
def convertRGB (im : Img) : Img :=
  { mode := PMode.RGB, width := im.width, height := im.height
    px := fun x y => let p := im.px x y; ⟨p.r, p.g, p.b, 255⟩ }

/-- `ImageChops.multiply` on same-sized RGB images: channelwise
`MULDIV255` (Chops.c, `ImagingChopMultiply`). -/
def multiplyImg (im1 im2 : Img) : Img :=
  { mode := im1.mode, width := im1.width, height := im1.height
    px := fun x y =>
      let p := im1.px x y
      let q := im2.px x y
      ⟨muldiv255 p.r q.r, muldiv255 p.g q.g, muldiv255 p.b q.b, 255⟩ }

/-- One channel of `Image.blend(im1, im2, alpha)` in the interpolation
branch of Pillow's Blend.c: `(UINT8)(in1 + alpha * (in2 - in1))`, a
truncating cast of a value that stays within `[0, 255]` when
`0 ≤ alpha ≤ 1` and the inputs are 8-bit.  (The C arithmetic is
single-precision float; the claims below do not depend on its rounding.) -/
def pyBlendChannel (alpha : ℚ) (c m : ℕ) : ℕ :=
  (pyTrunc ((c : ℚ) + alpha * ((m : ℚ) - (c : ℚ)))).toNat

/-- `Image.blend(im1, im2, alpha)` (Blend.c): an exact copy of `im1` at
`alpha == 0.0`, an exact copy of `im2` at `alpha == 1.0`, channelwise
interpolation in between. -/
def blendImg (im1 im2 : Img) (alpha : ℚ) : Img :=
  { mode := im1.mode, width := im1.width, height := im1.height
    px := fun x y =>
      if alpha = 0 then im1.px x y
      else if alpha = 1 then im2.px x y
      else
        let p := im1.px x y
        let q := im2.px x y
        ⟨pyBlendChannel alpha p.r q.r, pyBlendChannel alpha p.g q.g,
          pyBlendChannel alpha p.b q.b, 255⟩ }

/-- Line 133: the lookup table `lambda a: 255 if a >= 250 else 0` applied
by `Image.point` to the overlay's alpha channel. -/
def thresholdMask (a : ℕ) : ℕ := if 250 ≤ a then 255 else 0

/-- Lines 132-133: `overlay.getchannel("A").point(...)` as a map from
coordinates to mask values. -/
def maskOf (overlay : Img) : ℤ → ℤ → ℕ :=
  fun x y => thresholdMask ((overlay.px x y).a)

/-- One channel of Pillow's paste blending (Paste.c `BLEND` macro):
`MULDIV255(in1, 255 - mask) + MULDIV255(in2, mask)` where `in1` is the
underlying pixel and `in2` the pasted one. -/
def compositeChannel (m c1 c2 : ℕ) : ℕ :=
  muldiv255 c2 (255 - m) + muldiv255 c1 m

/-- `Image.composite(im1, im2, mask)`: Pillow copies `im2` and pastes
`im1` over it through `mask`, so each channel is the paste blend with
`im1` weighted by the mask value. -/
def compositeImg (im1 im2 : Img) (mask : ℤ → ℤ → ℕ) : Img :=
  { mode := im2.mode, width := im2.width, height := im2.height
    px := fun x y =>
      let m := mask x y
      let p := im1.px x y
      let q := im2.px x y
      ⟨compositeChannel m p.r q.r, compositeChannel m p.g q.g,
        compositeChannel m p.b q.b, 255⟩ }

/-- Line 106: `canvas.paste(final_artwork, (paste_x, paste_y),
final_artwork)` — inside the pasted rectangle every band is paste-blended
through the pasted image's own alpha channel; outside it the canvas is
untouched. -/
def pasteImg (canvas im : Img) (ox oy : ℤ) : Img :=
  { mode := canvas.mode, width := canvas.width, height := canvas.height
    px := fun x y =>
      if ox ≤ x ∧ x < ox + (im.width : ℤ) ∧ oy ≤ y ∧ y < oy + (im.height : ℤ) then
        let p := im.px (x - ox) (y - oy)
        let q := canvas.px x y
        ⟨compositeChannel p.a p.r q.r, compositeChannel p.a p.g q.g,
          compositeChannel p.a p.b q.b, compositeChannel p.a p.a q.a⟩
      else canvas.px x y }

/-- Lines 120-136, the Overlay Blender: convert canvas and overlay to
RGB, multiply-blend them, soften by linear interpolation with weight
`opacity`, then select the raw overlay RGB wherever the overlay's alpha
is at least 250 and the soft blend elsewhere. -/
def overlayBlend (canvas overlay : Img) (opacity : ℚ) : Img :=
  compositeImg (convertRGB overlay)
    (blendImg (convertRGB canvas)
      (multiplyImg (convertRGB canvas) (convertRGB overlay)) opacity)
    (maskOf overlay)

/-- Lines 82-139, one (artwork, configuration, overlay) render: blank
canvas, rotate, uniformly scale, paste at the centring offset, resize the
overlay to the canvas size if needed, overlay-blend, and downscale to the
export size. -/
def renderMockup (R : Resampler) (artwork : Img) (cfg : MockupConfig) (overlay : Img) : Img :=
  let rotated := R.rotate artwork cfg.rotation
  let s := scaleFor rotated.width rotated.height cfg
  let finalArt := resizeImg R rotated
      (pyTrunc ((rotated.width : ℚ) * s)).toNat
      (pyTrunc ((rotated.height : ℚ) * s)).toNat
  let canvas := pasteImg blankCanvas finalArt
      (pasteXFor cfg (finalArt.width : ℤ)) (pasteYFor cfg (finalArt.height : ℤ))
  let overlay2 :=
    if overlay.width = CANVAS_W ∧ overlay.height = CANVAS_H then overlay
    else resizeImg R overlay CANVAS_W CANVAS_H
  let blended := overlayBlend canvas overlay2 SHADOW_OPACITY
  resizeImg R blended OUTPUT_W OUTPUT_H

/-- A canvas whose every pixel has all colour channels 1. -/
def cvOnes : Img :=
  { mode := PMode.RGBA, width := 4, height := 4, px := fun _ _ => ⟨1, 1, 1, 255⟩ }

/-- An overlay whose every pixel has colour channels 128 and alpha 0
(so its handle mask is empty). -/
def ovHalf : Img :=
  { mode := PMode.RGBA, width := 4, height := 4, px := fun _ _ => ⟨128, 128, 128, 0⟩ }

/-- A small constant canvas used to instantiate blending statements. -/
def cvWitness : Img :=
  { mode := PMode.RGBA, width := 2, height := 2, px := fun _ _ => ⟨100, 150, 200, 255⟩ }

/-- A small constant overlay with a fully-opaque (handle) alpha channel. -/
def ovWitness : Img :=
  { mode := PMode.RGBA, width := 2, height := 2, px := fun _ _ => ⟨10, 20, 30, 250⟩ }

/-- A small constant overlay with alpha below the handle threshold. -/
def ovWitnessSoft : Img :=
  { mode := PMode.RGBA, width := 2, height := 2, px := fun _ _ => ⟨10, 20, 30, 40⟩ }

/-- ASCII case of CPython `str.lower` (the filenames involved are ASCII;
full Unicode case mapping is not modelled). -/
def asciiLowerChar (c : Char) : Char :=
  if 'A' ≤ c ∧ c ≤ 'Z' then Char.ofNat (c.toNat + 32) else c

/-- `filename.lower()` (line 159), ASCII fragment. -/
def pyLower (s : String) : String := ⟨s.data.map asciiLowerChar⟩

/-- Python `str.startswith(pat)`. -/
def strStartsWith (s pat : String) : Bool := pat.data.isPrefixOf s.data

/-- Python `str.endswith(pat)`. -/
def strEndsWith (s pat : String) : Bool := pat.data.isSuffixOf s.data

/-- `os.path.basename` (POSIX): the part after the last slash. -/
def pyBasename (s : String) : String :=
  ⟨(s.data.reverse.takeWhile (fun c => c ≠ '/')).reverse⟩

/-- The root part of `os.path.splitext` on a slash-free name
(posixpath `_splitext`): cut at the last dot unless every character
before that dot is itself a dot (leading dots do not start an
extension). -/
def splitextRootL (l : List Char) : List Char :=
  match l.reverse.findIdx? (fun c => c = '.') with
  | none => l
  | some i =>
    let d := l.length - 1 - i
    if (l.take d).all (fun c => c = '.') then l else l.take d

/-- `os.path.splitext(s)[0]`. -/
def splitextRoot (s : String) : String := ⟨splitextRootL s.data⟩

/-- Line 28: `INPUT_FOLDER = "output_webp"`. -/
def INPUT_FOLDER : String := "output_webp"

/-- Line 29: `OVERLAYS_FOLDER = "overlays"`. -/
def OVERLAYS_FOLDER : String := "overlays"

/-- Line 30: `OUTPUT_FOLDER = "output2"`. -/
def OUTPUT_FOLDER : String := "output2"

/-- `os.path.join(d, f)` for a relative slash-free second component. -/
def joinPath (d f : String) : String := d ++ "/" ++ f

/-- Lines 75-76: strip the extension and the directory from the input
path, and the leading `"img_"` when present. -/
def baseNameOf (webpPath : String) : String :=
  let ob := splitextRoot (pyBasename webpPath)
  if strStartsWith ob "img_" then ⟨ob.data.drop 4⟩ else ob

/-- Line 142: `"small"` for the 30x40 mockup key, `"large"` otherwise. -/
def variantTag (key : String) : String :=
  if key = "mockup_30x40_tr" then "small" else "large"

/-- Line 143: the output filename for a mockup key and stripped base. -/
def outputFilename (key base : String) : String :=
  variantTag key ++ "_" ++ base ++ ".webp"

/-- Line 71: the message printed when an artwork fails to open. -/
def openErrMsg (path e : String) : String :=
  "Error opening " ++ path ++ ": " ++ e

/-- Line 113: the message printed when an overlay fails to open. -/
def openOverlayErrMsg (path e : String) : String :=
  "Error opening overlay " ++ path ++ ": " ++ e

/-- A message mentions a path when the path occurs verbatim inside it. -/
def msgMentions (msg p : String) : Prop := ∃ pre post, msg = pre ++ p ++ post

/-- One file written by `final_image.save` (line 146). -/
structure SavedFile where
  path : String
  image : Img

/-- The per-configuration loop of `process_webp_image` (lines 79-147):
for each mockup configuration, open its overlay; on failure print an
error and `continue`, otherwise render and save.  Returns the saved
files and the error messages, in loop order. -/
def processConfigs (R : Resampler) (art : Img) (base : String)
    (ovF : String → Except String Img) :
    List (String × MockupConfig) → List SavedFile × List String
  | [] => ([], [])
  | (key, cfg) :: rest =>
    let tail := processConfigs R art base ovF rest
    match ovF (joinPath OVERLAYS_FOLDER cfg.overlay_filename) with
    | Except.error e =>
        (tail.1, openOverlayErrMsg (joinPath OVERLAYS_FOLDER cfg.overlay_filename) e :: tail.2)
    | Except.ok ov =>
        ({ path := joinPath OUTPUT_FOLDER (outputFilename key base)
           image := renderMockup R art cfg ov } :: tail.1, tail.2)

/-- `process_webp_image` (lines 66-147): decode the artwork; on failure
print an error and return, otherwise run the per-configuration loop.
`dec`-style arguments model the outcome of `Image.open(...).convert`. -/
def processWebpImage (R : Resampler) (webpPath : String)
    (decoded : Except String Img) (ovF : String → Except String Img)
    (cfgs : List (String × MockupConfig)) : List SavedFile × List String :=
  match decoded with
  | Except.error e => ([], [openErrMsg webpPath e])
  | Except.ok art => processConfigs R art (baseNameOf webpPath) ovF cfgs

/-- Line 159: the batch driver's file filter. -/
def shouldProcess (f : String) : Bool :=
  strEndsWith (pyLower f) ".webp" && strStartsWith f "img_"

/-- The loop of `main` (lines 158-162): process each listed filename
that passes the filter; everything else is skipped without output. -/
def runBatch (R : Resampler) (dec ovF : String → Except String Img)
    (cfgs : List (String × MockupConfig)) :
    List String → List SavedFile × List String
  | [] => ([], [])
  | f :: rest =>
    let tail := runBatch R dec ovF cfgs rest
    if shouldProcess f then
      let res := processWebpImage R (joinPath INPUT_FOLDER f)
          (dec (joinPath INPUT_FOLDER f)) ovF cfgs
      (res.1 ++ tail.1, res.2 ++ tail.2)
    else tail

/-- A resampler interpretation used to instantiate statements that are
quantified over the resampling kernels. -/
def trivResampler : Resampler :=
  { rotate := fun im _ => im, sample := fun _ _ _ _ _ => ⟨0, 0, 0, 0⟩ }

/-- `Image.rotate(angle, ...)` at an angle with `angle % 360 == 0`:
Pillow's zero-angle fast path returns a plain copy of the image, so the
"rotated" artwork keeps the artwork's own dimensions and pixels. -/
def pilRotateZero (im : Img) : Img := im

/-- A 10×20 constant artwork used to instantiate placement statements. -/
def artTenTwenty : Img :=
  { mode := PMode.RGBA, width := 10, height := 20, px := fun _ _ => ⟨1, 2, 3, 255⟩ }

/-- A configuration whose target box is exactly 10×20 at anchor (3, 4),
with zero rotation. -/
def cfgTenTwenty : MockupConfig :=
  { overlay_filename := "w.png", artwork_width := 10, artwork_height := 20
    artwork_x := 3, artwork_y := 4, rotation := 0 }

/-- A decode outcome that always fails, used to instantiate the
error-propagation statement. -/
def decFail : String → Except String Img := fun _ => Except.error "no such file"

/-- An overlay-open outcome that always fails. -/
def ovFail : String → Except String Img := fun _ => Except.error "missing overlay"

-- ------------------------------------------------------------------
-- Theorems
-- ------------------------------------------------------------------

theorem pyTrunc_intCast (n : ℤ) : pyTrunc (n : ℚ) = n := by
  unfold pyTrunc
  split <;> simp

theorem pyTrunc_natCast (n : ℕ) : pyTrunc ((n : ℕ) : ℚ) = n := by
  have : (((n : ℕ) : ℤ) : ℚ) = ((n : ℕ) : ℚ) := by push_cast; ring
  rw [← this, pyTrunc_intCast]

theorem pyTrunc_nonneg_eq_floor (q : ℚ) (h : 0 ≤ q) : pyTrunc q = ⌊q⌋ := by
  unfold pyTrunc
  exact if_pos h

/-- Distance between a rational and its Python truncation is below one. -/
theorem pyTrunc_close (q : ℚ) : |(pyTrunc q : ℚ) - q| < 1 := by
  unfold pyTrunc
  split
  · have h1 := Int.floor_le q
    have h2 := Int.lt_floor_add_one q
    rw [abs_lt]
    constructor <;> linarith
  · have h1 := Int.le_ceil q
    have h2 := Int.ceil_lt_add_one q
    rw [abs_lt]
    constructor <;> linarith

/-- C2: for a rotated artwork of positive size and positive target
dimensions, the single scale factor is the arithmetic mean of the two
per-axis ratios, and the resized integer pixel dimensions are the
mathematical floors of `rotated.width * scale` and
`rotated.height * scale` (Python `int()` truncation coincides with the
floor because the scaled values are nonnegative). -/
theorem c2_uniform_scale_floor (rw rh : ℕ) (cfg : MockupConfig)
    (hrw : 0 < rw) (hrh : 0 < rh)
    (haw : 0 < cfg.artwork_width) (hah : 0 < cfg.artwork_height) :
    scaleFor rw rh cfg
      = ((cfg.artwork_width : ℚ) / (rw : ℚ) + (cfg.artwork_height : ℚ) / (rh : ℚ)) / 2
    ∧ finalW rw rh cfg = ⌊(rw : ℚ) * scaleFor rw rh cfg⌋
    ∧ finalH rw rh cfg = ⌊(rh : ℚ) * scaleFor rw rh cfg⌋ := by
  have hrwq : (0 : ℚ) < (rw : ℚ) := by exact_mod_cast hrw
  have hrhq : (0 : ℚ) < (rh : ℚ) := by exact_mod_cast hrh
  have hawq : (0 : ℚ) < (cfg.artwork_width : ℚ) := by exact_mod_cast haw
  have hahq : (0 : ℚ) < (cfg.artwork_height : ℚ) := by exact_mod_cast hah
  have hscale : 0 ≤ scaleFor rw rh cfg := by
    unfold scaleFor
    positivity
  refine ⟨rfl, ?_, ?_⟩
  · exact pyTrunc_nonneg_eq_floor _ (by positivity)
  · exact pyTrunc_nonneg_eq_floor _ (by positivity)

theorem c2_uniform_scale_floor_witness :
    0 < (100 : ℕ) ∧ 0 < (150 : ℕ)
    ∧ 0 < mockup30x40.artwork_width ∧ 0 < mockup30x40.artwork_height
    ∧ (scaleFor 100 150 mockup30x40
        = ((mockup30x40.artwork_width : ℚ) / (100 : ℚ)
            + (mockup30x40.artwork_height : ℚ) / (150 : ℚ)) / 2
      ∧ finalW 100 150 mockup30x40 = ⌊(100 : ℚ) * scaleFor 100 150 mockup30x40⌋
      ∧ finalH 100 150 mockup30x40 = ⌊(150 : ℚ) * scaleFor 100 150 mockup30x40⌋) :=
  ⟨by decide, by decide, by decide, by decide,
    c2_uniform_scale_floor 100 150 mockup30x40 (by decide) (by decide)
      (by decide) (by decide)⟩

/-- C3 counterexample: the paste offset is NOT the mathematical floor.
With anchor 0, target width 1 and a scaled width of 2 the centring
argument is `-1/2`; Python's `int()` truncates it to `0` while the
mathematical floor is `-1`. -/
theorem c3_pasteX_not_floor :
    pasteXFor cfgSmallBox 2 = 0
    ∧ ⌊(cfgSmallBox.artwork_x : ℚ) + (cfgSmallBox.artwork_width : ℚ) / 2 - (2 : ℚ) / 2⌋ = -1
    ∧ pasteXFor cfgSmallBox 2
        ≠ ⌊(cfgSmallBox.artwork_x : ℚ) + (cfgSmallBox.artwork_width : ℚ) / 2 - (2 : ℚ) / 2⌋ := by
  have h0 : pasteXFor cfgSmallBox 2 = 0 := by
    show pyTrunc ((0 : ℚ) + (1 : ℚ) / 2 - (2 : ℚ) / 2) = 0
    unfold pyTrunc
    rw [if_neg (by norm_num)]
    norm_num
  have h1 : ⌊(cfgSmallBox.artwork_x : ℚ) + (cfgSmallBox.artwork_width : ℚ) / 2 - (2 : ℚ) / 2⌋ = -1 := by
    show ⌊(0 : ℚ) + (1 : ℚ) / 2 - (2 : ℚ) / 2⌋ = -1
    norm_num
  exact ⟨h0, h1, by rw [h0, h1]; decide⟩

/-- C3 (amended): the paste offsets are Python `int()` truncations toward
zero of `anchor + target/2 - scaled/2`; truncation agrees with the
mathematical floor whenever the argument is nonnegative (equivalently,
`scaled ≤ 2*anchor + target`), and in every case the resulting offset
places the scaled artwork's centre within one pixel of the anchor box's
centre. -/
theorem c3_paste_trunc (cfg : MockupConfig) (fw fh : ℤ) :
    (pasteXFor cfg fw
        = pyTrunc ((cfg.artwork_x : ℚ) + (cfg.artwork_width : ℚ) / 2 - (fw : ℚ) / 2)
      ∧ pasteYFor cfg fh
        = pyTrunc ((cfg.artwork_y : ℚ) + (cfg.artwork_height : ℚ) / 2 - (fh : ℚ) / 2))
    ∧ (fw ≤ 2 * cfg.artwork_x + cfg.artwork_width →
        pasteXFor cfg fw
          = ⌊(cfg.artwork_x : ℚ) + (cfg.artwork_width : ℚ) / 2 - (fw : ℚ) / 2⌋)
    ∧ (fh ≤ 2 * cfg.artwork_y + cfg.artwork_height →
        pasteYFor cfg fh
          = ⌊(cfg.artwork_y : ℚ) + (cfg.artwork_height : ℚ) / 2 - (fh : ℚ) / 2⌋)
    ∧ |((pasteXFor cfg fw : ℚ) + (fw : ℚ) / 2)
        - ((cfg.artwork_x : ℚ) + (cfg.artwork_width : ℚ) / 2)| < 1
    ∧ |((pasteYFor cfg fh : ℚ) + (fh : ℚ) / 2)
        - ((cfg.artwork_y : ℚ) + (cfg.artwork_height : ℚ) / 2)| < 1 := by
  refine ⟨⟨rfl, rfl⟩, ?_, ?_, ?_, ?_⟩
  · intro h
    apply pyTrunc_nonneg_eq_floor
    have : ((fw : ℚ)) ≤ 2 * (cfg.artwork_x : ℚ) + (cfg.artwork_width : ℚ) := by
      exact_mod_cast h
    linarith
  · intro h
    apply pyTrunc_nonneg_eq_floor
    have : ((fh : ℚ)) ≤ 2 * (cfg.artwork_y : ℚ) + (cfg.artwork_height : ℚ) := by
      exact_mod_cast h
    linarith
  · have := pyTrunc_close ((cfg.artwork_x : ℚ) + (cfg.artwork_width : ℚ) / 2 - (fw : ℚ) / 2)
    unfold pasteXFor
    rw [show ((pyTrunc ((cfg.artwork_x : ℚ) + (cfg.artwork_width : ℚ) / 2 - (fw : ℚ) / 2) : ℚ)
          + (fw : ℚ) / 2) - ((cfg.artwork_x : ℚ) + (cfg.artwork_width : ℚ) / 2)
        = (pyTrunc ((cfg.artwork_x : ℚ) + (cfg.artwork_width : ℚ) / 2 - (fw : ℚ) / 2) : ℚ)
          - ((cfg.artwork_x : ℚ) + (cfg.artwork_width : ℚ) / 2 - (fw : ℚ) / 2) by ring]
    exact this
  · have := pyTrunc_close ((cfg.artwork_y : ℚ) + (cfg.artwork_height : ℚ) / 2 - (fh : ℚ) / 2)
    unfold pasteYFor
    rw [show ((pyTrunc ((cfg.artwork_y : ℚ) + (cfg.artwork_height : ℚ) / 2 - (fh : ℚ) / 2) : ℚ)
          + (fh : ℚ) / 2) - ((cfg.artwork_y : ℚ) + (cfg.artwork_height : ℚ) / 2)
        = (pyTrunc ((cfg.artwork_y : ℚ) + (cfg.artwork_height : ℚ) / 2 - (fh : ℚ) / 2) : ℚ)
          - ((cfg.artwork_y : ℚ) + (cfg.artwork_height : ℚ) / 2 - (fh : ℚ) / 2) by ring]
    exact this

theorem c3_paste_trunc_witness :
    ((2554 : ℤ) ≤ 2 * mockup30x40.artwork_x + mockup30x40.artwork_width)
    ∧ ((pasteXFor mockup30x40 2554
          = pyTrunc ((mockup30x40.artwork_x : ℚ) + (mockup30x40.artwork_width : ℚ) / 2
              - ((2554 : ℤ) : ℚ) / 2)
        ∧ pasteYFor mockup30x40 3185
          = pyTrunc ((mockup30x40.artwork_y : ℚ) + (mockup30x40.artwork_height : ℚ) / 2
              - ((3185 : ℤ) : ℚ) / 2))
      ∧ ((2554 : ℤ) ≤ 2 * mockup30x40.artwork_x + mockup30x40.artwork_width →
          pasteXFor mockup30x40 2554
            = ⌊(mockup30x40.artwork_x : ℚ) + (mockup30x40.artwork_width : ℚ) / 2
                - ((2554 : ℤ) : ℚ) / 2⌋)
      ∧ ((3185 : ℤ) ≤ 2 * mockup30x40.artwork_y + mockup30x40.artwork_height →
          pasteYFor mockup30x40 3185
            = ⌊(mockup30x40.artwork_y : ℚ) + (mockup30x40.artwork_height : ℚ) / 2
                - ((3185 : ℤ) : ℚ) / 2⌋)
      ∧ |((pasteXFor mockup30x40 2554 : ℚ) + ((2554 : ℤ) : ℚ) / 2)
          - ((mockup30x40.artwork_x : ℚ) + (mockup30x40.artwork_width : ℚ) / 2)| < 1
      ∧ |((pasteYFor mockup30x40 3185 : ℚ) + ((3185 : ℤ) : ℚ) / 2)
          - ((mockup30x40.artwork_y : ℚ) + (mockup30x40.artwork_height : ℚ) / 2)| < 1) :=
  ⟨by decide, c3_paste_trunc mockup30x40 2554 3185⟩

theorem muldiv255_zero (x : ℕ) : muldiv255 x 0 = 0 := by
  unfold muldiv255
  omega

theorem muldiv255_max (x : ℕ) (h : x ≤ 255) : muldiv255 x 255 = x := by
  unfold muldiv255
  omega

theorem muldiv255_le (a b : ℕ) (ha : a ≤ 255) (hb : b ≤ 255) :
    muldiv255 a b ≤ 255 := by
  unfold muldiv255
  have h : a * b ≤ 65025 := Nat.mul_le_mul ha hb
  omega

/-- Pillow's `MULDIV255` computes division by 255 rounded to the nearest
integer (ties rounding up): it equals `(2ab + 255) / 510`. -/
theorem muldiv255_round (a b : ℕ) (ha : a ≤ 255) (hb : b ≤ 255) :
    muldiv255 a b = (2 * (a * b) + 255) / 510 := by
  unfold muldiv255
  have h : a * b ≤ 65025 := Nat.mul_le_mul ha hb
  omega

theorem compositeChannel_full (c1 c2 : ℕ) (h : c1 ≤ 255) :
    compositeChannel 255 c1 c2 = c1 := by
  unfold compositeChannel
  rw [show (255 - 255 : ℕ) = 0 from rfl, muldiv255_zero, muldiv255_max c1 h]
  omega

theorem compositeChannel_none (c1 c2 : ℕ) (h : c2 ≤ 255) :
    compositeChannel 0 c1 c2 = c2 := by
  unfold compositeChannel
  rw [Nat.sub_zero, muldiv255_max c2 h, muldiv255_zero]
  omega

theorem pyBlendChannel_le (alpha : ℚ) (h0 : 0 ≤ alpha) (h1 : alpha ≤ 1)
    (c m : ℕ) (hc : c ≤ 255) (hm : m ≤ 255) : pyBlendChannel alpha c m ≤ 255 := by
  unfold pyBlendChannel
  have hcq : (c : ℚ) ≤ 255 := by exact_mod_cast hc
  have hmq : (m : ℚ) ≤ 255 := by exact_mod_cast hm
  have hc0 : (0 : ℚ) ≤ (c : ℚ) := by positivity
  have hm0 : (0 : ℚ) ≤ (m : ℚ) := by positivity
  have hv0 : 0 ≤ (c : ℚ) + alpha * ((m : ℚ) - (c : ℚ)) := by nlinarith
  have hv255 : (c : ℚ) + alpha * ((m : ℚ) - (c : ℚ)) ≤ 255 := by nlinarith
  rw [pyTrunc_nonneg_eq_floor _ hv0, Int.toNat_le]
  have : ⌊(c : ℚ) + alpha * ((m : ℚ) - (c : ℚ))⌋ ≤ ⌊(255 : ℚ)⌋ :=
    Int.floor_le_floor hv255
  simpa using this

/-- C1 (exhibiting the rotation direction at the failing input): on a
2×1 artwork with a red left pixel and a blue right pixel, the Pillow
call of line 87 at a 90-degree angle puts the blue (rightmost) source
pixel at the top-left of the output — a counterclockwise turn — while a
clockwise 90-degree rotation would put the red (leftmost) pixel there.
The code's own comments (lines 54 and 86) and the spec call the rotation
clockwise. -/
theorem c1_rotate90_counterclockwise :
    (pilRotate90 artTwoPixels).px 0 0 = artTwoPixels.px 1 0
    ∧ (pilRotate90 artTwoPixels).px 0 0 = ⟨0, 0, 200, 255⟩
    ∧ (clockwise90 artTwoPixels).px 0 0 = ⟨200, 0, 0, 255⟩
    ∧ (pilRotate90 artTwoPixels).px 0 0 ≠ (clockwise90 artTwoPixels).px 0 0 := by
  decide

/-- C4: the handle mask selects a pixel exactly when the overlay's alpha
is at least 250 (250 is a handle, 249 is not), handle pixels of the
final composite take the overlay's own RGB colour unmodified, and
non-handle pixels take the soft blend. -/
theorem c4_handle_mask (canvas overlay : Img) (x y : ℤ)
    (hcr : (canvas.px x y).r ≤ 255) (hcg : (canvas.px x y).g ≤ 255)
    (hcb : (canvas.px x y).b ≤ 255)
    (hor : (overlay.px x y).r ≤ 255) (hog : (overlay.px x y).g ≤ 255)
    (hob : (overlay.px x y).b ≤ 255) :
    (maskOf overlay x y = 255 ↔ 250 ≤ (overlay.px x y).a)
    ∧ thresholdMask 250 = 255
    ∧ thresholdMask 249 = 0
    ∧ (250 ≤ (overlay.px x y).a →
        (overlayBlend canvas overlay SHADOW_OPACITY).px x y
          = (convertRGB overlay).px x y)
    ∧ ((overlay.px x y).a < 250 →
        (overlayBlend canvas overlay SHADOW_OPACITY).px x y
          = (blendImg (convertRGB canvas)
              (multiplyImg (convertRGB canvas) (convertRGB overlay))
              SHADOW_OPACITY).px x y) := by
  have hs0 : ¬ (SHADOW_OPACITY = 0) := by norm_num [SHADOW_OPACITY]
  have hs1 : ¬ (SHADOW_OPACITY = 1) := by norm_num [SHADOW_OPACITY]
  refine ⟨?_, by decide, by decide, ?_, ?_⟩
  · unfold maskOf thresholdMask
    split <;> simp_all
  · intro h
    have hm : maskOf overlay x y = 255 := by
      unfold maskOf thresholdMask
      rw [if_pos h]
    show (compositeImg (convertRGB overlay) _ (maskOf overlay)).px x y = _
    simp only [compositeImg, convertRGB, hm]
    rw [compositeChannel_full _ _ hor, compositeChannel_full _ _ hog,
      compositeChannel_full _ _ hob]
  · intro h
    have hm : maskOf overlay x y = 0 := by
      unfold maskOf thresholdMask
      rw [if_neg (by omega)]
    have hsoft : ∀ c o : ℕ, c ≤ 255 → o ≤ 255 →
        pyBlendChannel SHADOW_OPACITY c (muldiv255 c o) ≤ 255 := by
      intro c o hc ho
      exact pyBlendChannel_le SHADOW_OPACITY (by norm_num [SHADOW_OPACITY])
        (by norm_num [SHADOW_OPACITY]) c (muldiv255 c o) hc (muldiv255_le c o hc ho)
    show (compositeImg (convertRGB overlay) _ (maskOf overlay)).px x y = _
    simp only [compositeImg, convertRGB, blendImg, multiplyImg, hm,
      if_neg hs0, if_neg hs1]
    rw [compositeChannel_none _ _ (hsoft _ _ hcr hor),
      compositeChannel_none _ _ (hsoft _ _ hcg hog),
      compositeChannel_none _ _ (hsoft _ _ hcb hob)]

theorem c4_handle_mask_witness :
    ((cvWitness.px 0 0).r ≤ 255 ∧ (cvWitness.px 0 0).g ≤ 255
      ∧ (cvWitness.px 0 0).b ≤ 255 ∧ (ovWitness.px 0 0).r ≤ 255
      ∧ (ovWitness.px 0 0).g ≤ 255 ∧ (ovWitness.px 0 0).b ≤ 255)
    ∧ ((maskOf ovWitness 0 0 = 255 ↔ 250 ≤ (ovWitness.px 0 0).a)
      ∧ thresholdMask 250 = 255
      ∧ thresholdMask 249 = 0
      ∧ (250 ≤ (ovWitness.px 0 0).a →
          (overlayBlend cvWitness ovWitness SHADOW_OPACITY).px 0 0
            = (convertRGB ovWitness).px 0 0)
      ∧ ((ovWitness.px 0 0).a < 250 →
          (overlayBlend cvWitness ovWitness SHADOW_OPACITY).px 0 0
            = (blendImg (convertRGB cvWitness)
                (multiplyImg (convertRGB cvWitness) (convertRGB ovWitness))
                SHADOW_OPACITY).px 0 0)) :=
  ⟨⟨by decide, by decide, by decide, by decide, by decide, by decide⟩,
    c4_handle_mask cvWitness ovWitness 0 0 (by decide) (by decide) (by decide)
      (by decide) (by decide) (by decide)⟩

/-- C5 counterexample: with `shadow_opacity = 1` and an overlay with no
handle pixel, a canvas channel of 1 against an overlay channel of 128
produces 1 in the composite (Pillow's `MULDIV255` rounds 128/255 to the
nearest integer), whereas the claimed value `canvas * overlay / 255` is
0 as an integer division and `128/255` as an exact fraction — neither
equals the produced 1. -/
theorem c5_not_exact_division :
    ((overlayBlend cvOnes ovHalf 1).px 0 0).r = 1
    ∧ ((cvOnes.px 0 0).r * (ovHalf.px 0 0).r) / 255 = 0
    ∧ ((overlayBlend cvOnes ovHalf 1).px 0 0).r
        ≠ ((cvOnes.px 0 0).r * (ovHalf.px 0 0).r) / 255
    ∧ (((overlayBlend cvOnes ovHalf 1).px 0 0).r : ℚ)
        ≠ ((cvOnes.px 0 0).r : ℚ) * ((ovHalf.px 0 0).r : ℚ) / 255 := by
  have h1 : ((overlayBlend cvOnes ovHalf 1).px 0 0).r = 1 := by decide
  refine ⟨h1, by decide, by decide, ?_⟩
  rw [h1]
  show (1 : ℚ) ≠ ((cvOnes.px 0 0).r : ℚ) * ((ovHalf.px 0 0).r : ℚ) / 255
  norm_num [cvOnes, ovHalf]

/-- C5 (amended): with `shadow_opacity = 1` and an overlay whose alpha
never reaches the handle threshold, the Overlay Blender reduces at every
pixel and channel to Pillow's multiply blend `MULDIV255(c, o)`, which is
`c * o / 255` rounded to the nearest integer (ties up), i.e.
`(2co + 255) / 510`. -/
theorem c5_multiply_reduction (canvas overlay : Img)
    (_hw : canvas.width = overlay.width) (_hh : canvas.height = overlay.height)
    (hmask : ∀ x y : ℤ, (overlay.px x y).a < 250) (x y : ℤ)
    (hcr : (canvas.px x y).r ≤ 255) (hcg : (canvas.px x y).g ≤ 255)
    (hcb : (canvas.px x y).b ≤ 255)
    (hor : (overlay.px x y).r ≤ 255) (hog : (overlay.px x y).g ≤ 255)
    (hob : (overlay.px x y).b ≤ 255) :
    (((overlayBlend canvas overlay 1).px x y).r
        = muldiv255 (canvas.px x y).r (overlay.px x y).r
      ∧ ((overlayBlend canvas overlay 1).px x y).g
        = muldiv255 (canvas.px x y).g (overlay.px x y).g
      ∧ ((overlayBlend canvas overlay 1).px x y).b
        = muldiv255 (canvas.px x y).b (overlay.px x y).b)
    ∧ (muldiv255 (canvas.px x y).r (overlay.px x y).r
        = (2 * ((canvas.px x y).r * (overlay.px x y).r) + 255) / 510
      ∧ muldiv255 (canvas.px x y).g (overlay.px x y).g
        = (2 * ((canvas.px x y).g * (overlay.px x y).g) + 255) / 510
      ∧ muldiv255 (canvas.px x y).b (overlay.px x y).b
        = (2 * ((canvas.px x y).b * (overlay.px x y).b) + 255) / 510) := by
  have hm : maskOf overlay x y = 0 := by
    unfold maskOf thresholdMask
    rw [if_neg (by have := hmask x y; omega)]
  have h10 : ¬ ((1 : ℚ) = 0) := by norm_num
  constructor
  · show ((compositeImg (convertRGB overlay) _ (maskOf overlay)).px x y).r = _
      ∧ ((compositeImg (convertRGB overlay) _ (maskOf overlay)).px x y).g = _
      ∧ ((compositeImg (convertRGB overlay) _ (maskOf overlay)).px x y).b = _
    simp only [compositeImg, convertRGB, blendImg, multiplyImg, hm,
      if_neg h10, if_pos rfl]
    exact ⟨compositeChannel_none _ _ (muldiv255_le _ _ hcr hor),
      compositeChannel_none _ _ (muldiv255_le _ _ hcg hog),
      compositeChannel_none _ _ (muldiv255_le _ _ hcb hob)⟩
  · exact ⟨muldiv255_round _ _ hcr hor, muldiv255_round _ _ hcg hog,
      muldiv255_round _ _ hcb hob⟩

theorem c5_multiply_reduction_witness :
    (cvWitness.width = ovWitnessSoft.width ∧ cvWitness.height = ovWitnessSoft.height
      ∧ (∀ x y : ℤ, (ovWitnessSoft.px x y).a < 250)
      ∧ (cvWitness.px 0 0).r ≤ 255 ∧ (cvWitness.px 0 0).g ≤ 255
      ∧ (cvWitness.px 0 0).b ≤ 255 ∧ (ovWitnessSoft.px 0 0).r ≤ 255
      ∧ (ovWitnessSoft.px 0 0).g ≤ 255 ∧ (ovWitnessSoft.px 0 0).b ≤ 255)
    ∧ ((((overlayBlend cvWitness ovWitnessSoft 1).px 0 0).r
          = muldiv255 (cvWitness.px 0 0).r (ovWitnessSoft.px 0 0).r
        ∧ ((overlayBlend cvWitness ovWitnessSoft 1).px 0 0).g
          = muldiv255 (cvWitness.px 0 0).g (ovWitnessSoft.px 0 0).g
        ∧ ((overlayBlend cvWitness ovWitnessSoft 1).px 0 0).b
          = muldiv255 (cvWitness.px 0 0).b (ovWitnessSoft.px 0 0).b)
      ∧ (muldiv255 (cvWitness.px 0 0).r (ovWitnessSoft.px 0 0).r
          = (2 * ((cvWitness.px 0 0).r * (ovWitnessSoft.px 0 0).r) + 255) / 510
        ∧ muldiv255 (cvWitness.px 0 0).g (ovWitnessSoft.px 0 0).g
          = (2 * ((cvWitness.px 0 0).g * (ovWitnessSoft.px 0 0).g) + 255) / 510
        ∧ muldiv255 (cvWitness.px 0 0).b (ovWitnessSoft.px 0 0).b
          = (2 * ((cvWitness.px 0 0).b * (ovWitnessSoft.px 0 0).b) + 255) / 510)) :=
  ⟨⟨by decide, by decide, fun _ _ => by simp [ovWitnessSoft], by decide, by decide, by decide,
      by decide, by decide, by decide⟩,
    c5_multiply_reduction cvWitness ovWitnessSoft (by decide) (by decide)
      (fun _ _ => by simp [ovWitnessSoft]) 0 0 (by decide) (by decide) (by decide)
      (by decide) (by decide) (by decide)⟩

/-- C10: whatever the artwork, configuration, overlay and resampling
kernels, the image handed to `save` is in 3-channel RGB mode (no alpha)
and has exactly the fixed export dimensions 1500 × 2000. -/
theorem c10_export_shape (R : Resampler) (artwork : Img) (cfg : MockupConfig)
    (overlay : Img) :
    (renderMockup R artwork cfg overlay).mode = PMode.RGB
    ∧ (renderMockup R artwork cfg overlay).width = 1500
    ∧ (renderMockup R artwork cfg overlay).height = 2000 :=
  ⟨rfl, rfl, rfl⟩

theorem takeWhile_of_all (p : Char → Bool) (l : List Char)
    (h : ∀ c ∈ l, p c = true) : l.takeWhile p = l := by
  induction l with
  | nil => rfl
  | cons a as ih =>
    rw [List.takeWhile_cons, if_pos (h a (List.mem_cons_self a as))]
    rw [ih (fun c hc => h c (List.mem_cons_of_mem a hc))]

theorem findIdx?_no_match (p : Char → Bool) (l1 : List Char) (x : Char)
    (l2 : List Char) (i : ℕ) (h1 : ∀ c ∈ l1, p c = false) (hx : p x = true) :
    List.findIdx? p (l1 ++ x :: l2) i = some (i + l1.length) := by
  induction l1 generalizing i with
  | nil => simp [List.findIdx?_cons, hx]
  | cons a as ih =>
    have ha : p a = false := h1 a (List.mem_cons_self a as)
    rw [List.cons_append, List.findIdx?_cons, if_neg (by simp [ha])]
    rw [ih (i + 1) (fun c hc => h1 c (List.mem_cons_of_mem a hc))]
    congr 1
    simp only [List.length_cons]
    omega

theorem splitextRootL_strip (s e : List Char)
    (he : '.' ∉ e) (hs : ∃ c ∈ s, c ≠ '.') :
    splitextRootL (s ++ '.' :: e) = s := by
  unfold splitextRootL
  have hrev : (s ++ '.' :: e).reverse = e.reverse ++ '.' :: s.reverse := by
    simp
  have hfind : List.findIdx? (fun c => c = '.') ((s ++ '.' :: e).reverse) 0
      = some (0 + e.reverse.length) := by
    rw [hrev]
    exact findIdx?_no_match _ _ _ _ 0
      (fun c hc => by
        have : c ∈ e := List.mem_reverse.mp hc
        simp only [decide_eq_false_iff_not]
        intro hcd
        exact he (hcd ▸ this))
      (by simp)
  rw [hfind]
  have hd : (s ++ '.' :: e).length - 1 - (0 + e.reverse.length) = s.length := by
    simp only [List.length_append, List.length_cons, List.length_reverse]
    omega
  simp only [hd]
  have htake : (s ++ '.' :: e).take s.length = s := List.take_left s ('.' :: e)
  rw [htake, if_neg]
  obtain ⟨c, hc, hne⟩ := hs
  simp only [List.all_eq_true, decide_eq_true_eq]
  push_neg
  exact ⟨c, hc, hne⟩

theorem strData_append (s t : String) : (s ++ t).data = s.data ++ t.data := rfl

/-- C8: the output filename is the variant tag, an underscore, the input
base name (directory and extension removed) with a leading `"img_"`
stripped when present, and the export extension `".webp"` whatever the
input extension was; in particular `img_sunset.webp` with the `"small"`
variant yields `small_sunset.webp` and `photo.png` with the `"large"`
variant yields `large_photo.webp`. -/
theorem c8_output_filename (key stem ext : String)
    (hext : '.' ∉ ext.data) (hsl1 : '/' ∉ stem.data) (hsl2 : '/' ∉ ext.data)
    (hstem : ∃ c ∈ stem.data, c ≠ '.') :
    outputFilename key (baseNameOf (stem ++ "." ++ ext))
      = variantTag key ++ "_"
        ++ (if strStartsWith stem "img_" then String.mk (stem.data.drop 4) else stem)
        ++ ".webp"
    ∧ outputFilename "mockup_30x40_tr" (baseNameOf "img_sunset.webp")
      = "small_sunset.webp"
    ∧ outputFilename "mockup_60x80_tr" (baseNameOf "photo.png")
      = "large_photo.webp" := by
  refine ⟨?_, by decide, by decide⟩
  have hdata : (stem ++ "." ++ ext).data = stem.data ++ '.' :: ext.data := by
    rw [strData_append, strData_append]
    simp
  have hnosl : ∀ c ∈ (stem ++ "." ++ ext).data, (c ≠ '/' : Bool) = true := by
    rw [hdata]
    intro c hc
    simp only [decide_eq_true_eq]
    rcases List.mem_append.mp hc with h | h
    · intro hcd
      exact hsl1 (hcd ▸ h)
    · rcases List.mem_cons.mp h with h2 | h2
      · rw [h2]
        decide
      · intro hcd
        exact hsl2 (hcd ▸ h2)
  have hbase : pyBasename (stem ++ "." ++ ext) = stem ++ "." ++ ext := by
    unfold pyBasename
    rw [takeWhile_of_all _ _ (fun c hc => hnosl c (List.mem_reverse.mp hc))]
    rw [List.reverse_reverse]
  have hroot : splitextRoot (stem ++ "." ++ ext) = stem := by
    unfold splitextRoot
    rw [hdata, splitextRootL_strip stem.data ext.data hext hstem]
  unfold baseNameOf outputFilename
  rw [hbase, hroot]

theorem c8_output_filename_witness :
    ('.' ∉ "webp".data ∧ '/' ∉ "img_sunset".data ∧ '/' ∉ "webp".data
      ∧ (∃ c ∈ "img_sunset".data, c ≠ '.'))
    ∧ (outputFilename "mockup_30x40_tr" (baseNameOf ("img_sunset" ++ "." ++ "webp"))
        = variantTag "mockup_30x40_tr" ++ "_"
          ++ (if strStartsWith "img_sunset" "img_"
              then String.mk ("img_sunset".data.drop 4) else "img_sunset")
          ++ ".webp"
      ∧ outputFilename "mockup_30x40_tr" (baseNameOf "img_sunset.webp")
        = "small_sunset.webp"
      ∧ outputFilename "mockup_60x80_tr" (baseNameOf "photo.png")
        = "large_photo.webp") :=
  ⟨⟨by decide, by decide, by decide, by decide⟩,
    c8_output_filename "mockup_30x40_tr" "img_sunset" "webp" (by decide)
      (by decide) (by decide) (by decide)⟩

/-- C9: the batch driver processes exactly the listed filenames whose
ASCII-lowercased form ends in `".webp"` and which start (case-sensitively)
with `"img_"`; every other filename — `photo.png`, `sunset.webp` — is
skipped and contributes neither output nor log entry. -/
theorem c9_input_filter (R : Resampler) (dec ovF : String → Except String Img)
    (cfgs : List (String × MockupConfig)) (files : List String) :
    runBatch R dec ovF cfgs files = runBatch R dec ovF cfgs (files.filter shouldProcess)
    ∧ (∀ f, f ∈ files.filter shouldProcess
        ↔ f ∈ files ∧ strEndsWith (pyLower f) ".webp" = true
          ∧ strStartsWith f "img_" = true)
    ∧ shouldProcess "photo.png" = false
    ∧ shouldProcess "sunset.webp" = false
    ∧ shouldProcess "img_sunset.webp" = true := by
  refine ⟨?_, ?_, by decide, by decide, by decide⟩
  · induction files with
    | nil => rfl
    | cons f rest ih =>
      by_cases hf : shouldProcess f
      · simp [runBatch, List.filter_cons, hf, ih]
      · simp [runBatch, List.filter_cons, hf, ih]
  · intro f
    rw [List.mem_filter]
    unfold shouldProcess
    rw [Bool.and_eq_true]

/-- C6: on an artwork whose raw pixel dimensions already equal the
target box and a configuration with zero rotation (so Pillow's rotate
returns the image unchanged), the uniform scale is exactly 1, the
resized dimensions are unchanged, and the paste offset is exactly the
anchor `(artwork_x, artwork_y)`. -/
theorem c6_identity_placement (artwork : Img) (cfg : MockupConfig)
    (_hrot : cfg.rotation = 0)
    (hw : (artwork.width : ℤ) = cfg.artwork_width)
    (hh : (artwork.height : ℤ) = cfg.artwork_height)
    (hw0 : 0 < artwork.width) (hh0 : 0 < artwork.height) :
    scaleFor (pilRotateZero artwork).width (pilRotateZero artwork).height cfg = 1
    ∧ finalW (pilRotateZero artwork).width (pilRotateZero artwork).height cfg
      = (artwork.width : ℤ)
    ∧ finalH (pilRotateZero artwork).width (pilRotateZero artwork).height cfg
      = (artwork.height : ℤ)
    ∧ pasteXFor cfg
        (finalW (pilRotateZero artwork).width (pilRotateZero artwork).height cfg)
      = cfg.artwork_x
    ∧ pasteYFor cfg
        (finalH (pilRotateZero artwork).width (pilRotateZero artwork).height cfg)
      = cfg.artwork_y := by
  have hwne : ((artwork.width : ℕ) : ℚ) ≠ 0 := by
    exact_mod_cast Nat.pos_iff_ne_zero.mp hw0
  have hhne : ((artwork.height : ℕ) : ℚ) ≠ 0 := by
    exact_mod_cast Nat.pos_iff_ne_zero.mp hh0
  have hwq : (cfg.artwork_width : ℚ) = ((artwork.width : ℕ) : ℚ) := by
    rw [← hw]
    push_cast
    ring
  have hhq : (cfg.artwork_height : ℚ) = ((artwork.height : ℕ) : ℚ) := by
    rw [← hh]
    push_cast
    ring
  have hscale : scaleFor (pilRotateZero artwork).width (pilRotateZero artwork).height cfg = 1 := by
    show scaleFor artwork.width artwork.height cfg = 1
    unfold scaleFor
    rw [hwq, hhq, div_self hwne, div_self hhne]
    norm_num
  have hfw : finalW (pilRotateZero artwork).width (pilRotateZero artwork).height cfg
      = (artwork.width : ℤ) := by
    show finalW artwork.width artwork.height cfg = (artwork.width : ℤ)
    unfold finalW
    rw [show scaleFor artwork.width artwork.height cfg = 1 from hscale, mul_one,
      pyTrunc_natCast]
  have hfh : finalH (pilRotateZero artwork).width (pilRotateZero artwork).height cfg
      = (artwork.height : ℤ) := by
    show finalH artwork.width artwork.height cfg = (artwork.height : ℤ)
    unfold finalH
    rw [show scaleFor artwork.width artwork.height cfg = 1 from hscale, mul_one,
      pyTrunc_natCast]
  refine ⟨hscale, hfw, hfh, ?_, ?_⟩
  · rw [hfw]
    unfold pasteXFor
    rw [show (cfg.artwork_x : ℚ) + (cfg.artwork_width : ℚ) / 2
          - (((artwork.width : ℕ) : ℤ) : ℚ) / 2 = (cfg.artwork_x : ℚ) by
        rw [hwq]
        push_cast
        ring]
    exact pyTrunc_intCast cfg.artwork_x
  · rw [hfh]
    unfold pasteYFor
    rw [show (cfg.artwork_y : ℚ) + (cfg.artwork_height : ℚ) / 2
          - (((artwork.height : ℕ) : ℤ) : ℚ) / 2 = (cfg.artwork_y : ℚ) by
        rw [hhq]
        push_cast
        ring]
    exact pyTrunc_intCast cfg.artwork_y

theorem c6_identity_placement_witness :
    (cfgTenTwenty.rotation = 0
      ∧ (artTenTwenty.width : ℤ) = cfgTenTwenty.artwork_width
      ∧ (artTenTwenty.height : ℤ) = cfgTenTwenty.artwork_height
      ∧ 0 < artTenTwenty.width ∧ 0 < artTenTwenty.height)
    ∧ (scaleFor (pilRotateZero artTenTwenty).width (pilRotateZero artTenTwenty).height
          cfgTenTwenty = 1
      ∧ finalW (pilRotateZero artTenTwenty).width (pilRotateZero artTenTwenty).height
          cfgTenTwenty = (artTenTwenty.width : ℤ)
      ∧ finalH (pilRotateZero artTenTwenty).width (pilRotateZero artTenTwenty).height
          cfgTenTwenty = (artTenTwenty.height : ℤ)
      ∧ pasteXFor cfgTenTwenty
          (finalW (pilRotateZero artTenTwenty).width (pilRotateZero artTenTwenty).height
            cfgTenTwenty) = cfgTenTwenty.artwork_x
      ∧ pasteYFor cfgTenTwenty
          (finalH (pilRotateZero artTenTwenty).width (pilRotateZero artTenTwenty).height
            cfgTenTwenty) = cfgTenTwenty.artwork_y) :=
  ⟨⟨rfl, by decide, by decide, by decide, by decide⟩,
    c6_identity_placement artTenTwenty cfgTenTwenty rfl (by decide) (by decide)
      (by decide) (by decide)⟩

theorem runBatch_decode_skip (R : Resampler) (dec ovF : String → Except String Img)
    (cfgs : List (String × MockupConfig)) (files1 files2 : List String)
    (f e : String) (hf : shouldProcess f = true)
    (hdec : dec (joinPath INPUT_FOLDER f) = Except.error e) :
    (runBatch R dec ovF cfgs (files1 ++ f :: files2)).1
      = (runBatch R dec ovF cfgs (files1 ++ files2)).1
    ∧ openErrMsg (joinPath INPUT_FOLDER f) e
        ∈ (runBatch R dec ovF cfgs (files1 ++ f :: files2)).2 := by
  induction files1 with
  | nil =>
    constructor
    · simp [runBatch, hf, processWebpImage, hdec]
    · simp [runBatch, hf, processWebpImage, hdec]
  | cons g gs ih =>
    by_cases hg : shouldProcess g
    · constructor
      · simp only [List.cons_append, runBatch, hg, if_true, List.append_eq]
        rw [ih.1]
      · simp only [List.cons_append, runBatch, hg, if_true]
        exact List.mem_append_right _ ih.2
    · constructor
      · simp only [List.cons_append, runBatch, hg, if_false]
        exact ih.1
      · simp only [List.cons_append, runBatch, hg, if_false]
        exact ih.2

theorem processConfigs_overlay_skip (R : Resampler) (art : Img) (base : String)
    (ovF : String → Except String Img) (cfgs1 cfgs2 : List (String × MockupConfig))
    (key : String) (cfg : MockupConfig) (e2 : String)
    (hov : ovF (joinPath OVERLAYS_FOLDER cfg.overlay_filename) = Except.error e2) :
    (processConfigs R art base ovF (cfgs1 ++ (key, cfg) :: cfgs2)).1
      = (processConfigs R art base ovF (cfgs1 ++ cfgs2)).1
    ∧ openOverlayErrMsg (joinPath OVERLAYS_FOLDER cfg.overlay_filename) e2
        ∈ (processConfigs R art base ovF (cfgs1 ++ (key, cfg) :: cfgs2)).2 := by
  induction cfgs1 with
  | nil =>
    constructor
    · simp [processConfigs, hov]
    · simp [processConfigs, hov]
  | cons kc rest ih =>
    obtain ⟨k2, c2⟩ := kc
    rcases h2 : ovF (joinPath OVERLAYS_FOLDER c2.overlay_filename) with e' | ov'
    · constructor
      · simp only [List.cons_append, processConfigs, h2]
        exact ih.1
      · simp only [List.cons_append, processConfigs, h2]
        exact List.mem_cons_of_mem _ ih.2
    · constructor
      · simp only [List.cons_append, processConfigs, h2, List.append_eq]
        rw [ih.1]
      · simp only [List.cons_append, processConfigs, h2]
        exact ih.2

/-- C7: a decode failure for one artwork leaves the outputs of the rest
of the batch unchanged (only that artwork is skipped) and contributes an
error message that carries the artwork path; an overlay-open failure for
one configuration leaves the same artwork's outputs for the remaining
configurations unchanged (only that pairing is skipped) and contributes
an error message that carries the overlay path. -/
theorem c7_error_scoping (R : Resampler) (dec ovF : String → Except String Img)
    (cfgs : List (String × MockupConfig)) (files1 files2 : List String) (f e : String)
    (art : Img) (base : String) (cfgs1 cfgs2 : List (String × MockupConfig))
    (key : String) (cfg : MockupConfig) (e2 : String)
    (hf : shouldProcess f = true)
    (hdec : dec (joinPath INPUT_FOLDER f) = Except.error e)
    (hov : ovF (joinPath OVERLAYS_FOLDER cfg.overlay_filename) = Except.error e2) :
    (runBatch R dec ovF cfgs (files1 ++ f :: files2)).1
      = (runBatch R dec ovF cfgs (files1 ++ files2)).1
    ∧ openErrMsg (joinPath INPUT_FOLDER f) e
        ∈ (runBatch R dec ovF cfgs (files1 ++ f :: files2)).2
    ∧ msgMentions (openErrMsg (joinPath INPUT_FOLDER f) e) (joinPath INPUT_FOLDER f)
    ∧ (processConfigs R art base ovF (cfgs1 ++ (key, cfg) :: cfgs2)).1
      = (processConfigs R art base ovF (cfgs1 ++ cfgs2)).1
    ∧ openOverlayErrMsg (joinPath OVERLAYS_FOLDER cfg.overlay_filename) e2
        ∈ (processConfigs R art base ovF (cfgs1 ++ (key, cfg) :: cfgs2)).2
    ∧ msgMentions (openOverlayErrMsg (joinPath OVERLAYS_FOLDER cfg.overlay_filename) e2)
        (joinPath OVERLAYS_FOLDER cfg.overlay_filename) := by
  obtain ⟨hb1, hb2⟩ := runBatch_decode_skip R dec ovF cfgs files1 files2 f e hf hdec
  obtain ⟨hc1, hc2⟩ :=
    processConfigs_overlay_skip R art base ovF cfgs1 cfgs2 key cfg e2 hov
  exact ⟨hb1, hb2,
    ⟨"Error opening ", ": " ++ e, String.append_assoc _ ": " e⟩,
    hc1, hc2,
    ⟨"Error opening overlay ", ": " ++ e2, String.append_assoc _ ": " e2⟩⟩

theorem c7_error_scoping_witness :
    (shouldProcess "img_a.webp" = true
      ∧ decFail (joinPath INPUT_FOLDER "img_a.webp") = Except.error "no such file"
      ∧ ovFail (joinPath OVERLAYS_FOLDER mockup30x40.overlay_filename)
          = Except.error "missing overlay")
    ∧ ((runBatch trivResampler decFail ovFail mockupList ([] ++ "img_a.webp" :: [])).1
        = (runBatch trivResampler decFail ovFail mockupList ([] ++ [])).1
      ∧ openErrMsg (joinPath INPUT_FOLDER "img_a.webp") "no such file"
          ∈ (runBatch trivResampler decFail ovFail mockupList ([] ++ "img_a.webp" :: [])).2
      ∧ msgMentions (openErrMsg (joinPath INPUT_FOLDER "img_a.webp") "no such file")
          (joinPath INPUT_FOLDER "img_a.webp")
      ∧ (processConfigs trivResampler cvWitness "a" ovFail
            ([] ++ ("mockup_30x40_tr", mockup30x40) :: [])).1
        = (processConfigs trivResampler cvWitness "a" ovFail ([] ++ [])).1
      ∧ openOverlayErrMsg (joinPath OVERLAYS_FOLDER mockup30x40.overlay_filename)
            "missing overlay"
          ∈ (processConfigs trivResampler cvWitness "a" ovFail
              ([] ++ ("mockup_30x40_tr", mockup30x40) :: [])).2
      ∧ msgMentions (openOverlayErrMsg (joinPath OVERLAYS_FOLDER
              mockup30x40.overlay_filename) "missing overlay")
          (joinPath OVERLAYS_FOLDER mockup30x40.overlay_filename)) :=
  ⟨⟨by decide, rfl, rfl⟩,
    c7_error_scoping trivResampler decFail ovFail mockupList [] [] "img_a.webp"
      "no such file" cvWitness "a" [] [] "mockup_30x40_tr" mockup30x40
      "missing overlay" (by decide) rfl rfl⟩
